import Mathlib

/-!
Verification development for the parking simulation environment
(`sim_env/parking_env.py`).  The geometric engine, the reward and
termination state machine, the observation builder and the scenario
generator are embedded shallowly over the reals.  Numeric configuration
constants and the car kinematics live in modules that are not part of the
source tree (`sim_env/parameters.py`, `sim_env/car.py`); they are carried
as parameters of the development or modelled from the specification where
noted.
-/

namespace ParkingEnv

open Real

noncomputable section

/-- A point in the plane, world coordinates in meters (an `[x, y]` numpy pair). -/
abbrev Point := ℝ × ℝ

/-- The side of the map holding the parking slot: 1 bottom, 2 top, 3 left, 4 right. -/
inductive Side where
  | one | two | three | four
deriving DecidableEq

/-- The parking layout, `metadata["parking_types"]`. -/
inductive ParkingType where
  | parallel | perpendicular
deriving DecidableEq

/-- A footprint: 4 ordered corner points (top-right, bottom-right, bottom-left,
top-left), the row order used by every 4-vertex numpy array in the source. -/
structure Quad where
  tr : Point
  br : Point
  bl : Point
  tl : Point

/-- The corner list, in source row order. -/
def Quad.toList (q : Quad) : List Point := [q.tr, q.br, q.bl, q.tl]

/-- Apply a point map to each corner (numpy broadcasting such as `struct + loc`). -/
def Quad.map (f : Point → Point) (q : Quad) : Quad :=
  ⟨f q.tr, f q.br, f q.bl, f q.tl⟩

/-- The corner pattern `[[+hx, +hy], [+hx, -hy], [-hx, -hy], [-hx, +hy]]` used by
the source for every rectangle constant (for example lines 533-537). -/
def rectStruct (hx hy : ℝ) : Quad :=
  ⟨(hx, hy), (hx, -hy), (-hx, -hy), (-hx, hy)⟩

/-- Rotation of a point by an angle about the origin. -/
def rot (θ : ℝ) (v : Point) : Point :=
  (v.1 * Real.cos θ - v.2 * Real.sin θ, v.1 * Real.sin θ + v.2 * Real.cos θ)

/-- Python float `x % y`: the remainder with the divisor's sign,
`x - y * floor (x / y)`.  Used for the angle wrap with `y = 2π > 0`. -/
def fmod (x y : ℝ) : ℝ := x - y * ⌊x / y⌋

/-- Elementwise `np.clip(state, a_min=-1, a_max=1)` (line 317). -/
def clip (x : ℝ) : ℝ := min 1 (max (-1) x)

/-- A draw of `random.uniform(lo, hi)`, parametrised by the unit sample `t`. -/
def uniformDraw (lo hi t : ℝ) : ℝ := lo + t * (hi - lo)

/-- The configuration constants of `sim_env/parameters.py`.  That module is not
part of the source tree, so the constants are parameters of the development;
the rectangle constants are carried as whole corner arrays. -/
structure Params where
  MAX_STEPS : ℕ
  MAX_DISTANCE : ℝ
  CENTER_THRESHOLD : ℝ
  MAX_ANGLE_ERROR : ℝ
  ACCELERATION_LIMIT : ℝ
  STEERING_LIMIT : ℝ
  VELOCITY_LIMIT : ℝ
  WHEELBASE : ℝ
  DT : ℝ
  CAR_L : ℝ
  CAR_W : ℝ
  CAR_STRUCT : Quad
  PARALLEL_HORIZONTAL : Quad
  PARALLEL_VERTICAL : Quad
  PERPENDICULAR_HORIZONTAL : Quad
  PERPENDICULAR_VERTICAL : Quad
  OFFSET_PARALLEL : ℝ
  OFFSET_PERPENDICULAR : ℝ
  WINDOW_W : ℝ
  WINDOW_H : ℝ
  PIXEL_TO_METER_SCALE : ℝ

/-- The mutable state of the agent car (class `Car` of `sim_env/car.py`):
position, scalar speed, heading, and the previous position kept for path
drawing. -/
structure Car where
  car_loc : Point
  v : ℝ
  psi : ℝ
  loc_old : Point

/-- Modelled from the spec: the vehicle footprint (`Car.car_vertices`,
`sim_env/car.py` is absent from the source tree).  Per section 4.1 of the
specification the fixed body-frame rectangle is rotated by the heading and
translated to the position; the body rectangle is the `CAR_STRUCT` constant. -/
def car_vertices (p : Params) (c : Car) : Quad :=
  Quad.map (fun w => rot c.psi w + c.car_loc) p.CAR_STRUCT

/-- The per-episode state owned by the environment between `reset` calls:
side, slot center, slot corners, obstacle footprints, car, stored observation,
flags and the step counter. -/
structure Episode where
  side : Side
  parking_lot : Point
  parking_lot_vertices : Quad
  static_cars_vertices : List Quad
  car : Car
  state : List ℝ
  terminated : Bool
  truncated : Bool
  run_steps : ℕ

/-- Source lines 473-488, static method `check_boundary`: whether `obj` lies in
the axis-aligned box with top-right corner `xy1` and bottom-left corner `xy2`,
`xy2[0] <= obj[0] <= xy1[0] and xy2[1] <= obj[1] <= xy1[1]`. -/
def check_boundary (xy1 xy2 obj : Point) : Prop :=
  xy2.1 ≤ obj.1 ∧ obj.1 ≤ xy1.1 ∧ xy2.2 ≤ obj.2 ∧ obj.2 ≤ xy1.2

/-- Source lines 420-442, `check_cross_border`: the directional border test.
The edges are read off the slot corner array: left `top_left[0]`, right
`top_right[0]`, top `top_left[1]`, bottom `bottom_left[1]`; side 1 checks a
car corner below the bottom edge, side 2 above the top edge, side 3 left of
the left edge, and the final `else` (side 4) right of the right edge. -/
def check_cross_border (carVerts lotVerts : Quad) (side : Side) : Prop :=
  match side with
  | .one => ∃ v ∈ carVerts.toList, v.2 < lotVerts.bl.2
  | .two => ∃ v ∈ carVerts.toList, v.2 > lotVerts.tl.2
  | .three => ∃ v ∈ carVerts.toList, v.1 < lotVerts.tl.1
  | .four => ∃ v ∈ carVerts.toList, v.1 > lotVerts.tr.1

/-- Source lines 444-450, `is_car_in_parking_lot`: every car corner lies in the
box spanned by the slot's top-right (`xy1`) and bottom-left (`xy3`) corners. -/
def is_car_in_parking_lot (carVerts lotVerts : Quad) : Prop :=
  ∀ c ∈ carVerts.toList, check_boundary lotVerts.tr lotVerts.bl c

/-- Source lines 452-458, `check_collision`: some car corner lies inside some
static obstacle's box (top-right/bottom-left corners of that obstacle). -/
def check_collision (carVerts : Quad) (statics : List Quad) : Prop :=
  ∃ q ∈ statics, ∃ v ∈ carVerts.toList, check_boundary q.tr q.bl v

/-- Source lines 460-471, static method `check_max_distance`: some slot corner
is at `|dx| >= MAX_DISTANCE` or `|dy| >= MAX_DISTANCE` from the car location. -/
def check_max_distance (p : Params) (lotVerts : Quad) (loc : Point) : Prop :=
  ∃ v ∈ lotVerts.toList, |v.1 - loc.1| ≥ p.MAX_DISTANCE ∨ |v.2 - loc.2| ≥ p.MAX_DISTANCE

/-- Source lines 387-391, `is_parking_successful`: componentwise
`abs(parking_lot - car_loc)` within `CENTER_THRESHOLD` on both axes. -/
def is_parking_successful (p : Params) (parking_lot car_loc : Point) : Prop :=
  |parking_lot.1 - car_loc.1| ≤ p.CENTER_THRESHOLD ∧ |parking_lot.2 - car_loc.2| ≤ p.CENTER_THRESHOLD

/-- The value of `get_parking_angle` (source lines 393-407): one acceptable
heading for a perpendicular slot, a Python list of two for a parallel slot. -/
inductive ParkingAngle where
  | single (a : ℝ)
  | pair (a b : ℝ)

/-- The acceptable headings as a list. -/
def ParkingAngle.targets : ParkingAngle → List ℝ
  | .single a => [a]
  | .pair a b => [a, b]

/-- Source lines 393-407, `get_parking_angle`: the acceptable target heading(s)
for the episode's `(parking_type, side)`. -/
def get_parking_angle (t : ParkingType) (side : Side) : ParkingAngle :=
  match t, side with
  | .perpendicular, .one => .single (π / 2)
  | .perpendicular, .two => .single (-(π / 2))
  | .perpendicular, .three => .single 0
  | .perpendicular, .four => .single π
  | .parallel, .one => .pair 0 π
  | .parallel, .two => .pair 0 π
  | .parallel, .three => .pair (π / 2) (-(π / 2))
  | .parallel, .four => .pair (π / 2) (-(π / 2))

/-- The angle error of `calc_angle_dif` (source lines 412-414): the absolute
wrapped difference `abs((psi - angle + PI) % (2 PI) - PI)`, minimised over the
target list when the target is a Python list. -/
def angleError (psi : ℝ) : ParkingAngle → ℝ
  | .single a => |fmod (psi - a + π) (2 * π) - π|
  | .pair a b =>
      min (|fmod (psi - a + π) (2 * π) - π|) (|fmod (psi - b + π) (2 * π) - π|)

/-- Source lines 409-418, static method `calc_angle_dif`: the orientation
penalty `min(0.5 * (angle_error / MAX_ANGLE_ERROR), 0.5)`. -/
def calc_angle_dif (p : Params) (psi : ℝ) (pa : ParkingAngle) : ℝ :=
  min (0.5 * (angleError psi pa / p.MAX_ANGLE_ERROR)) 0.5

/-- Source lines 321-338, static method `transform_point`: translate the point
by minus the car position, then rotate by `-(heading - PI/2)`. -/
def transform_point (x y car_x car_y heading : ℝ) : Point :=
  let x1 := x - car_x
  let y1 := y - car_y
  let angle := heading - π / 2
  (x1 * Real.cos (-angle) - y1 * Real.sin (-angle),
   x1 * Real.sin (-angle) + y1 * Real.cos (-angle))

/-- Source lines 282-319, `get_normalized_state`: the ego-frame offsets of the
4 slot corners, flattened, then the ego-frame offset of the slot center, each
divided by `MAX_DISTANCE` and the whole vector clipped to `[-1, 1]`. -/
def get_normalized_state (p : Params) (lotVerts : Quad) (parking_lot car_loc : Point)
    (psi : ℝ) : List ℝ :=
  let distances := lotVerts.toList.map fun v =>
    transform_point v.1 v.2 car_loc.1 car_loc.2 psi
  let normalized_distances :=
    ((distances.map fun d => [d.1, d.2]).flatten).map fun x => x / p.MAX_DISTANCE
  let guidance := transform_point parking_lot.1 parking_lot.2 car_loc.1 car_loc.2 psi
  let normalized_guidance := [guidance.1 / p.MAX_DISTANCE, guidance.2 / p.MAX_DISTANCE]
  (normalized_distances ++ normalized_guidance).map clip

open Classical in
/-- Source lines 340-385, `_reward`: the per-step decision.  The step counter
is bumped first; then, first match wins: max-steps (reward -1, both flags),
border crossing, excessive distance, collision (each reward -1, terminated),
then the in-slot/centered success test (reward `1 - angle_penalty`,
terminated); any remaining case returns reward 0 with the flags untouched. -/
def _reward (p : Params) (t : ParkingType) (e : Episode) : ℝ × Episode :=
  let run_steps := e.run_steps + 1
  if run_steps = p.MAX_STEPS then
    (-1, { e with run_steps := run_steps, truncated := true, terminated := true })
  else if check_cross_border (car_vertices p e.car) e.parking_lot_vertices e.side then
    (-1, { e with run_steps := run_steps, terminated := true })
  else if check_max_distance p e.parking_lot_vertices e.car.car_loc then
    (-1, { e with run_steps := run_steps, terminated := true })
  else if check_collision (car_vertices p e.car) e.static_cars_vertices then
    (-1, { e with run_steps := run_steps, terminated := true })
  else if is_car_in_parking_lot (car_vertices p e.car) e.parking_lot_vertices then
    if is_parking_successful p e.parking_lot e.car.car_loc then
      (1 - calc_angle_dif p e.car.psi (get_parking_angle t e.side),
       { e with run_steps := run_steps, terminated := true })
    else
      (0, { e with run_steps := run_steps })
  else
    (0, { e with run_steps := run_steps })

/-- Modelled from the spec: the kinematic bicycle update `Car.kinematic_act`
(`sim_env/car.py` is absent from the source tree).  Per section 4.1 of the
specification: speed from acceleration clamped to the velocity limit, heading
from speed and steering via the bicycle turning-rate equation, position from
speed and heading, one fixed timestep. -/
def kinematic_act (p : Params) (c : Car) (action : ℝ × ℝ) : Car :=
  let v1 := max (-p.VELOCITY_LIMIT) (min p.VELOCITY_LIMIT (c.v + action.1 * p.DT))
  let psi1 := c.psi + v1 * Real.tan action.2 / p.WHEELBASE * p.DT
  { c with
    v := v1
    psi := psi1
    car_loc := (c.car_loc.1 + v1 * Real.cos psi1 * p.DT,
                c.car_loc.2 + v1 * Real.sin psi1 * p.DT) }

/-- Source lines 123-131, the tail of `step` shared by both action modes once
the action is a `[acceleration, steering]` pair: remember the old location,
advance the car, run `_reward`, rebuild and store the observation, and return
`(state, reward, terminated, truncated, step-count info)` next to the updated
episode. -/
def stepAfterDecode (p : Params) (t : ParkingType) (e : Episode) (action : ℝ × ℝ) :
    Episode × (List ℝ × ℝ × Bool × Bool × ℕ) :=
  let car0 := { e.car with loc_old := e.car.car_loc }
  let car1 := kinematic_act p car0 action
  let r := _reward p t { e with car := car1 }
  let st := get_normalized_state p r.2.parking_lot_vertices r.2.parking_lot
    r.2.car.car_loc r.2.car.psi
  let e2 := { r.2 with state := st }
  (e2, (st, r.1, e2.terminated, e2.truncated, e2.run_steps))

/-- Source lines 100-104 plus the shared tail: `step` in continuous mode.  The
action is clipped componentwise to `[-1, 1]` and scaled by the acceleration
and steering limits. -/
def stepContinuous (p : Params) (t : ParkingType) (e : Episode) (a δ : ℝ) :
    Episode × (List ℝ × ℝ × Bool × Bool × ℕ) :=
  stepAfterDecode p t e
    (clip a * p.ACCELERATION_LIMIT, clip δ * p.STEERING_LIMIT)

/-- Source lines 105-121 plus the shared tail: `step` in discrete mode.  The
six integers map to the fixed (acceleration sign, steering angle) pairs; any
other integer raises the invalid-action `ValueError` before any state is
touched, so the episode comes back unchanged next to the error. -/
def stepDiscrete (p : Params) (t : ParkingType) (e : Episode) (a : ℤ) :
    Episode × Except String (List ℝ × ℝ × Bool × Bool × ℕ) :=
  if a = 0 then
    let r := stepAfterDecode p t e (1, 0)
    (r.1, Except.ok r.2)
  else if a = 1 then
    let r := stepAfterDecode p t e (1, -(π / 6))
    (r.1, Except.ok r.2)
  else if a = 2 then
    let r := stepAfterDecode p t e (1, π / 6)
    (r.1, Except.ok r.2)
  else if a = 3 then
    let r := stepAfterDecode p t e (-1, 0)
    (r.1, Except.ok r.2)
  else if a = 4 then
    let r := stepAfterDecode p t e (-1, -(π / 6))
    (r.1, Except.ok r.2)
  else if a = 5 then
    let r := stepAfterDecode p t e (-1, π / 6)
    (r.1, Except.ok r.2)
  else
    (e, Except.error ("Invalid action value"))

/-- Iterated continuous `step` calls, keeping only the episode. -/
def runContinuous (p : Params) (t : ParkingType) (e : Episode)
    (acts : List (ℝ × ℝ)) : Episode :=
  acts.foldl (fun ep ad => (stepContinuous p t ep ad.1 ad.2).1) e

/-- Source lines 502-518, static method `get_parking_struct`: the slot corner
pattern for the layout and side. -/
def get_parking_struct (p : Params) (t : ParkingType) (side : Side) : Quad :=
  match t with
  | .parallel =>
    match side with
    | .one | .two => p.PARALLEL_HORIZONTAL
    | .three | .four => p.PARALLEL_VERTICAL
  | .perpendicular =>
    match side with
    | .one | .two => p.PERPENDICULAR_HORIZONTAL
    | .three | .four => p.PERPENDICULAR_VERTICAL

/-- Source lines 520-543, static method `get_car_struct`: the obstacle-car
corner pattern for the layout and side; the explicit branch is the
`[[+W/2, +L/2], [+W/2, -L/2], [-W/2, -L/2], [-W/2, +L/2]]` array. -/
def get_car_struct (p : Params) (t : ParkingType) (side : Side) : Quad :=
  match t with
  | .parallel =>
    match side with
    | .one | .two => p.CAR_STRUCT
    | .three | .four => rectStruct (p.CAR_W / 2) (p.CAR_L / 2)
  | .perpendicular =>
    match side with
    | .three | .four => p.CAR_STRUCT
    | .one | .two => rectStruct (p.CAR_W / 2) (p.CAR_L / 2)

/-- The offset constant chosen by `generate_static_obstacles`:
`OFFSET_PARALLEL` (line 645) for the parallel strategy and
`OFFSET_PERPENDICULAR` (line 681) for the perpendicular one. -/
def offsetOf (p : Params) (t : ParkingType) : ℝ :=
  match t with
  | .parallel => p.OFFSET_PARALLEL
  | .perpendicular => p.OFFSET_PERPENDICULAR

/-- Source lines 640-659 and 676-695, `generate_static_obstacles` of the two
strategy classes (identical up to the offset constant and the layout string):
two obstacle cars at plus/minus the offset from the slot center, horizontally
for sides 1 and 2, vertically for sides 3 and 4, each carrying its car corner
array and its phantom slot corner array. -/
def generate_static_obstacles (p : Params) (t : ParkingType) (parking_lot : Point)
    (side : Side) : List Quad × List Quad :=
  let offset := offsetOf p t
  let locs : List Point :=
    match side with
    | .one | .two =>
      [(parking_lot.1 + offset, parking_lot.2), (parking_lot.1 - offset, parking_lot.2)]
    | .three | .four =>
      [(parking_lot.1, parking_lot.2 + offset), (parking_lot.1, parking_lot.2 - offset)]
  let parking_struct := get_parking_struct p t side
  let car_struct := get_car_struct p t side
  (locs.map fun l => car_struct.map fun v => v + l,
   locs.map fun l => parking_struct.map fun v => v + l)

/-- Source lines 590-623, static method `set_initial_parking_loc`: one
coordinate fixed near the side's map edge, the other drawn uniformly in the
interior, both scaled from pixels to meters; `t` is the unit sample of the
uniform draw. -/
def set_initial_parking_loc (p : Params) (side : Side) (t : ℝ) : Point :=
  match side with
  | .one => (uniformDraw 100 (p.WINDOW_W - 100) t * p.PIXEL_TO_METER_SCALE,
             50 * p.PIXEL_TO_METER_SCALE)
  | .two => (uniformDraw 100 (p.WINDOW_W - 100) t * p.PIXEL_TO_METER_SCALE,
             550 * p.PIXEL_TO_METER_SCALE)
  | .three => (50 * p.PIXEL_TO_METER_SCALE,
               uniformDraw 100 (p.WINDOW_H - 100) t * p.PIXEL_TO_METER_SCALE)
  | .four => (750 * p.PIXEL_TO_METER_SCALE,
              uniformDraw 100 (p.WINDOW_H - 100) t * p.PIXEL_TO_METER_SCALE)

/-- Source lines 545-588, static method `set_initial_car_loc`: the car is
offset from the slot by the fixed standoff `init_dist = 7.5` along the
approach axis, with a `random.uniform(-5, 5)` lateral jitter whose unit
sample is `t` (so `t = 1/2` is zero jitter). -/
def set_initial_car_loc (side : Side) (parking_loc : Point) (t : ℝ) : Point :=
  let init_dist : ℝ := 7.5
  match side with
  | .one => (parking_loc.1 + uniformDraw (-5) 5 t, parking_loc.2 + init_dist)
  | .two => (parking_loc.1 + uniformDraw (-5) 5 t, parking_loc.2 - init_dist)
  | .three => (parking_loc.1 + init_dist, parking_loc.2 + uniformDraw (-5) 5 t)
  | .four => (parking_loc.1 - init_dist, parking_loc.2 + uniformDraw (-5) 5 t)

/-- Source lines 627-638 and 663-674, `set_initial_heading` of the two
strategies: a narrow uniform heading range per side (`t` the unit sample);
the strategies differ only at side 4. -/
def set_initial_heading (t : ParkingType) (side : Side) (u : ℝ) : ℝ :=
  match t, side with
  | _, .one => uniformDraw (π / 12 * 5) (π / 12 * 7) u
  | _, .two => uniformDraw (-(π / 12 * 7)) (-(π / 12 * 5)) u
  | _, .three => uniformDraw (-(π / 12)) (π / 12) u
  | .parallel, .four => uniformDraw (-(π / 12 * 11)) (π / 12 * 11) u
  | .perpendicular, .four => uniformDraw (π - π / 12) (π + π / 12) u

open Classical in
/-- Source lines 253-256, the rejection loop of `reset`: redraw the car
location until `check_max_distance` is false.  `ts` supplies the successive
jitter samples and the fuel bounds the number of iterations modelled. -/
def resetLoop (p : Params) (side : Side) (parking_lot : Point) (lotVerts : Quad) :
    ℕ → (ℕ → ℝ) → Option Point
  | 0, _ => none
  | n + 1, ts =>
    let car_loc := set_initial_car_loc side parking_lot (ts 0)
    if check_max_distance p lotVerts car_loc then
      resetLoop p side parking_lot lotVerts n (fun k => ts (k + 1))
    else
      some car_loc

/-- Source lines 238-280, `reset` with training mode "off" (the "on" branch
delegates to `set_init_position` of the absent `sim_env/init_state.py` and is
outside this model): place the slot, derive its corners, draw the car
location until it passes the distance check, build the car at the drawn
heading (a fresh `Car` starts at speed 0, modelled from the spec), generate
the static obstacles, store the observation, and clear both flags and the
step counter.  The randomness is passed in as unit samples. -/
def reset (p : Params) (t : ParkingType) (side : Side) (tLot : ℝ) (ts : ℕ → ℝ)
    (tHead : ℝ) (fuel : ℕ) : Option (Episode × List ℝ) :=
  let parking_lot := set_initial_parking_loc p side tLot
  let lotVerts := Quad.map (fun v => v + parking_lot) (get_parking_struct p t side)
  match resetLoop p side parking_lot lotVerts fuel ts with
  | none => none
  | some car_loc =>
    let car : Car :=
      { car_loc := car_loc, v := 0, psi := set_initial_heading t side tHead,
        loc_old := car_loc }
    let statics := (generate_static_obstacles p t parking_lot side).1
    let st := get_normalized_state p lotVerts parking_lot car.car_loc car.psi
    some ({ side := side, parking_lot := parking_lot, parking_lot_vertices := lotVerts,
            static_cars_vertices := statics, car := car, state := st,
            terminated := false, truncated := false, run_steps := 0 }, st)

/-- A concrete parameter valuation used to exercise the theorems on explicit
inputs (the true values of `sim_env/parameters.py` are not in the source
tree; these are plausible stand-ins with the documented 25-meter
`MAX_DISTANCE`). -/
def testParams : Params :=
  { MAX_STEPS := 300
    MAX_DISTANCE := 25
    CENTER_THRESHOLD := 1 / 2
    MAX_ANGLE_ERROR := 1
    ACCELERATION_LIMIT := 1
    STEERING_LIMIT := 1
    VELOCITY_LIMIT := 5
    WHEELBASE := 5 / 2
    DT := 1 / 10
    CAR_L := 4
    CAR_W := 2
    CAR_STRUCT := rectStruct 2 1
    PARALLEL_HORIZONTAL := rectStruct 3 1
    PARALLEL_VERTICAL := rectStruct 1 3
    PERPENDICULAR_HORIZONTAL := rectStruct (7 / 4) (11 / 4)
    PERPENDICULAR_VERTICAL := rectStruct (11 / 4) (7 / 4)
    OFFSET_PARALLEL := 7
    OFFSET_PERPENDICULAR := 7 / 2
    WINDOW_W := 800
    WINDOW_H := 600
    PIXEL_TO_METER_SCALE := 1 / 10 }

lemma neg_one_le_clip (x : ℝ) : -1 ≤ clip x :=
  le_min (by norm_num) (le_max_left _ _)

lemma clip_le_one (x : ℝ) : clip x ≤ 1 :=
  min_le_left _ _

/-- The concrete scenario of the specification's first scenario property:
side 1, perpendicular layout, slot centered at (10, 5). -/
def sceneLot : Point := (10, 5)

/-- The slot corners of the concrete scenario, as `reset` builds them. -/
def sceneVerts : Quad :=
  Quad.map (fun v => v + sceneLot) (get_parking_struct testParams .perpendicular .one)

/-- The initial car location of the concrete scenario: directly above the slot
at the fixed standoff, i.e. `set_initial_car_loc` with the zero-jitter unit
sample 1/2. -/
def scenePos : Point := set_initial_car_loc .one sceneLot (1 / 2)

/-- The observation of the concrete scenario at heading exactly π/2. -/
def sceneObs : List ℝ := get_normalized_state testParams sceneVerts sceneLot scenePos (π / 2)

/-- The freshly constructed car of the concrete scenario. -/
def sceneCar : Car := { car_loc := scenePos, v := 0, psi := π / 2, loc_old := scenePos }

/-- The episode `reset` produces for the concrete scenario. -/
def scene : Episode :=
  { side := .one, parking_lot := sceneLot, parking_lot_vertices := sceneVerts,
    static_cars_vertices := (generate_static_obstacles testParams .perpendicular sceneLot .one).1,
    car := sceneCar, state := sceneObs, terminated := false, truncated := false,
    run_steps := 0 }

lemma scenePos_eq : scenePos = (10, 25 / 2) := by
  norm_num [scenePos, set_initial_car_loc, uniformDraw, sceneLot, Prod.ext_iff]

lemma sceneVerts_eq :
    sceneVerts = ⟨(47/4, 31/4), (47/4, 9/4), (33/4, 9/4), (33/4, 31/4)⟩ := by
  norm_num [sceneVerts, sceneLot, get_parking_struct, testParams, rectStruct, Quad.map,
    Quad.mk.injEq, Prod.ext_iff]

lemma sceneCarV_eq :
    car_vertices testParams sceneCar = ⟨(9, 29/2), (11, 29/2), (11, 21/2), (9, 21/2)⟩ := by
  norm_num [car_vertices, sceneCar, scenePos_eq, testParams, rectStruct, Quad.map, rot,
    Real.cos_pi_div_two, Real.sin_pi_div_two, Quad.mk.injEq, Prod.ext_iff]

lemma scene_statics_eq :
    (generate_static_obstacles testParams .perpendicular sceneLot .one).1 =
      [⟨(29/2, 7), (29/2, 3), (25/2, 3), (25/2, 7)⟩,
       ⟨(15/2, 7), (15/2, 3), (11/2, 3), (11/2, 7)⟩] := by
  norm_num [generate_static_obstacles, offsetOf, get_car_struct, testParams, rectStruct,
    Quad.map, sceneLot, Quad.mk.injEq, Prod.ext_iff]

lemma scene_not_cross :
    ¬ check_cross_border (car_vertices testParams sceneCar) sceneVerts .one := by
  rw [sceneCarV_eq, sceneVerts_eq]
  norm_num [check_cross_border, Quad.toList]

lemma scene_not_md : ¬ check_max_distance testParams sceneVerts scenePos := by
  rw [sceneVerts_eq, scenePos_eq]
  norm_num [check_max_distance, Quad.toList, testParams, le_abs]

lemma scene_not_coll :
    ¬ check_collision (car_vertices testParams sceneCar) scene.static_cars_vertices := by
  have hs : scene.static_cars_vertices =
      [⟨(29/2, 7), (29/2, 3), (25/2, 3), (25/2, 7)⟩,
       ⟨(15/2, 7), (15/2, 3), (11/2, 3), (11/2, 7)⟩] := scene_statics_eq
  rw [hs, sceneCarV_eq]
  norm_num [check_collision, check_boundary, Quad.toList]

lemma scene_not_in_lot :
    ¬ is_car_in_parking_lot (car_vertices testParams sceneCar) sceneVerts := by
  rw [sceneCarV_eq, sceneVerts_eq]
  intro h
  have hb := h (9, 29/2) (by simp [Quad.toList])
  norm_num [check_boundary] at hb

lemma kinematic_act_zero (p : Params) (c : Car) (hv : c.v = 0)
    (hVL : 0 ≤ p.VELOCITY_LIMIT) : kinematic_act p c (0, 0) = c := by
  cases c with
  | mk loc v psi old =>
    simp only at hv
    subst hv
    simp [kinematic_act, Real.tan_zero, min_eq_right hVL,
      max_eq_right (neg_nonpos.mpr hVL), Prod.ext_iff]

lemma reward_scene :
    _reward testParams .perpendicular scene = (0, { scene with run_steps := 1 }) := by
  have h1 : ¬ (scene.run_steps + 1 = testParams.MAX_STEPS) := by decide
  have h2 : ¬ check_cross_border (car_vertices testParams scene.car)
      scene.parking_lot_vertices scene.side := scene_not_cross
  have h3 : ¬ check_max_distance testParams scene.parking_lot_vertices
      scene.car.car_loc := scene_not_md
  have h4 : ¬ check_collision (car_vertices testParams scene.car)
      scene.static_cars_vertices := scene_not_coll
  have h5 : ¬ is_car_in_parking_lot (car_vertices testParams scene.car)
      scene.parking_lot_vertices := scene_not_in_lot
  simp only [_reward]
  rw [if_neg h1, if_neg h2, if_neg h3, if_neg h4, if_neg h5]
  rfl

lemma step_scene :
    stepContinuous testParams .perpendicular scene 0 0 =
      ({ scene with run_steps := 1 }, (sceneObs, 0, false, false, 1)) := by
  have hact : (clip 0 * testParams.ACCELERATION_LIMIT, clip 0 * testParams.STEERING_LIMIT)
      = ((0 : ℝ), (0 : ℝ)) := by
    norm_num [clip, testParams, Prod.ext_iff]
  have hk : kinematic_act testParams { scene.car with loc_old := scene.car.car_loc } (0, 0)
      = sceneCar :=
    kinematic_act_zero testParams _ rfl (by norm_num [testParams])
  simp only [stepContinuous, stepAfterDecode]
  rw [hact, hk]
  have hsc : { scene with car := sceneCar } = scene := rfl
  rw [hsc, reward_scene]
  rfl

lemma sceneObs_eq :
    sceneObs = [7/100, -19/100, 7/100, -41/100, -7/100, -41/100, -7/100, -19/100, 0, -3/10] := by
  have hzero : π / 2 - π / 2 = 0 := sub_self _
  simp only [sceneObs, get_normalized_state, sceneVerts_eq, scenePos_eq, sceneLot,
    transform_point, Quad.toList, hzero, neg_zero, Real.cos_zero, Real.sin_zero,
    List.map_cons, List.map_nil, List.flatten, List.append_nil, List.nil_append,
    List.cons_append, List.singleton_append]
  norm_num [clip, testParams, min_def, max_def]

lemma reset_scene :
    reset testParams .perpendicular .one 0 (fun _ => 1/2) (1/2) 1 = some (scene, sceneObs) := by
  have hlot : set_initial_parking_loc testParams .one 0 = sceneLot := by
    norm_num [set_initial_parking_loc, uniformDraw, testParams, sceneLot, Prod.ext_iff]
  have hhead : set_initial_heading .perpendicular .one (1/2) = π / 2 := by
    simp only [set_initial_heading, uniformDraw]
    ring
  simp only [reset, hlot]
  rw [show Quad.map (fun v => v + sceneLot)
    (get_parking_struct testParams ParkingType.perpendicular Side.one) = sceneVerts from rfl]
  have hloop : resetLoop testParams .one sceneLot sceneVerts 1 (fun _ => 1/2) = some scenePos := by
    have hmd : ¬ check_max_distance testParams sceneVerts
        (set_initial_car_loc Side.one sceneLot (1/2)) := scene_not_md
    simp only [resetLoop]
    rw [if_neg hmd]
    rfl
  rw [hloop, hhead]
  rfl

lemma floor_half : ⌊(1 : ℝ) / 2⌋ = 0 := by
  rw [Int.floor_eq_zero_iff]
  constructor <;> norm_num

lemma fmod_pi_two_pi : fmod π (2 * π) = π := by
  have hπ : (π : ℝ) ≠ 0 := Real.pi_ne_zero
  have h : π / (2 * π) = 1 / 2 := by
    field_simp
    ring
  unfold fmod
  rw [h, floor_half]
  norm_num

lemma angleError_nonneg (psi : ℝ) (pa : ParkingAngle) : 0 ≤ angleError psi pa := by
  cases pa with
  | single a => exact abs_nonneg _
  | pair a b => exact le_min (abs_nonneg _) (abs_nonneg _)

lemma angleError_target (psi : ℝ) (pa : ParkingAngle) (h : psi ∈ pa.targets) :
    angleError psi pa = 0 := by
  have key : ∀ a : ℝ, |fmod (a - a + π) (2 * π) - π| = 0 := by
    intro a
    rw [show a - a + π = π by ring, fmod_pi_two_pi]
    simp
  cases pa with
  | single a =>
    simp only [ParkingAngle.targets, List.mem_singleton] at h
    subst h
    exact key psi
  | pair a b =>
    simp only [ParkingAngle.targets, List.mem_cons, List.mem_singleton,
      List.not_mem_nil, or_false] at h
    rcases h with rfl | rfl
    · simp only [angleError]
      rw [key psi]
      exact min_eq_left (abs_nonneg _)
    · simp only [angleError]
      rw [key psi]
      exact min_eq_right (abs_nonneg _)

/-- The concrete successfully parked episode: the scenario car moved to the
slot center with heading π/2. -/
def parkedCar : Car := { car_loc := sceneLot, v := 0, psi := π / 2, loc_old := sceneLot }

/-- The scenario episode with the car parked at the slot center. -/
def parked : Episode := { scene with car := parkedCar }

lemma parkedCarV_eq :
    car_vertices testParams parkedCar = ⟨(9, 7), (11, 7), (11, 3), (9, 3)⟩ := by
  norm_num [car_vertices, parkedCar, sceneLot, testParams, rectStruct, Quad.map, rot,
    Real.cos_pi_div_two, Real.sin_pi_div_two, Quad.mk.injEq, Prod.ext_iff]

lemma parked_not_cross :
    ¬ check_cross_border (car_vertices testParams parkedCar) sceneVerts .one := by
  rw [parkedCarV_eq, sceneVerts_eq]
  norm_num [check_cross_border, Quad.toList]

lemma parked_not_md : ¬ check_max_distance testParams sceneVerts sceneLot := by
  rw [sceneVerts_eq]
  norm_num [check_max_distance, Quad.toList, testParams, sceneLot, le_abs]

lemma parked_not_coll :
    ¬ check_collision (car_vertices testParams parkedCar) scene.static_cars_vertices := by
  rw [show scene.static_cars_vertices = _ from scene_statics_eq, parkedCarV_eq]
  norm_num [check_collision, check_boundary, Quad.toList]

lemma parked_in_lot :
    is_car_in_parking_lot (car_vertices testParams parkedCar) sceneVerts := by
  rw [parkedCarV_eq, sceneVerts_eq]
  norm_num [is_car_in_parking_lot, check_boundary, Quad.toList]

lemma parked_success : is_parking_successful testParams sceneLot sceneLot := by
  norm_num [is_parking_successful, sceneLot, testParams]

/-- C8: applying the ego-frame transform to the vehicle's own current position
yields exactly (0, 0), for every position and heading: the translation sends
the point to the origin and the rotation fixes the origin. -/
theorem transform_point_self (car_x car_y heading : ℝ) :
    transform_point car_x car_y car_x car_y heading = (0, 0) := by
  simp [transform_point]

/-- C7: the directional border check, characterised per side exactly as the
code reads the slot edges (side 1 true iff some car corner's y is below the
bottom edge `bottom_left[1]`, side 2 mirrored on the top edge `top_left[1]`,
sides 3 and 4 mirrored on the left `top_left[0]` and right `top_right[0]`
edges), and side-consistency: a car whose corners all lie strictly inside
those four edges crosses no side's border. -/
theorem cross_border_side_consistent (carVerts lotVerts : Quad) :
    (check_cross_border carVerts lotVerts .one ↔
      ∃ v ∈ carVerts.toList, v.2 < lotVerts.bl.2) ∧
    (check_cross_border carVerts lotVerts .two ↔
      ∃ v ∈ carVerts.toList, v.2 > lotVerts.tl.2) ∧
    (check_cross_border carVerts lotVerts .three ↔
      ∃ v ∈ carVerts.toList, v.1 < lotVerts.tl.1) ∧
    (check_cross_border carVerts lotVerts .four ↔
      ∃ v ∈ carVerts.toList, v.1 > lotVerts.tr.1) ∧
    (∀ side, (∀ v ∈ carVerts.toList,
        lotVerts.tl.1 < v.1 ∧ v.1 < lotVerts.tr.1 ∧
        lotVerts.bl.2 < v.2 ∧ v.2 < lotVerts.tl.2) →
      ¬ check_cross_border carVerts lotVerts side) := by
  refine ⟨Iff.rfl, Iff.rfl, Iff.rfl, Iff.rfl, ?_⟩
  intro side h hc
  cases side <;>
    (obtain ⟨v, hv, h1⟩ := hc
     obtain ⟨h2, h3, h4, h5⟩ := h v hv
     linarith)

/-- Witness for C7 at a concrete car strictly inside a concrete slot. -/
theorem cross_border_side_consistent_witness :
    (∀ v ∈ (Quad.toList ⟨(11, 7), (11, 3), (9, 3), (9, 7)⟩),
      (Quad.tl ⟨(47/4, 31/4), (47/4, 9/4), (33/4, 9/4), (33/4, 31/4)⟩).1 < v.1 ∧
      v.1 < (Quad.tr ⟨(47/4, 31/4), (47/4, 9/4), (33/4, 9/4), (33/4, 31/4)⟩).1 ∧
      (Quad.bl ⟨(47/4, 31/4), (47/4, 9/4), (33/4, 9/4), (33/4, 31/4)⟩).2 < v.2 ∧
      v.2 < (Quad.tl ⟨(47/4, 31/4), (47/4, 9/4), (33/4, 9/4), (33/4, 31/4)⟩).2) ∧
    ¬ check_cross_border ⟨(11, 7), (11, 3), (9, 3), (9, 7)⟩
      ⟨(47/4, 31/4), (47/4, 9/4), (33/4, 9/4), (33/4, 31/4)⟩ .one :=
  ⟨by norm_num [Quad.toList], (cross_border_side_consistent _ _).2.2.2.2 .one
    (by norm_num [Quad.toList])⟩

/-- C10: whenever the reset rejection loop returns a car location, that
location satisfies the strict negation of the distance check against every
slot corner (both coordinate differences strictly below `MAX_DISTANCE`), and
the same holds for the episode produced by a completed `reset` with training
mode off. -/
theorem reset_distance_invariant (p : Params) :
    (∀ side lot lotVerts fuel ts loc,
      resetLoop p side lot lotVerts fuel ts = some loc →
      ∀ v ∈ lotVerts.toList,
        |v.1 - loc.1| < p.MAX_DISTANCE ∧ |v.2 - loc.2| < p.MAX_DISTANCE) ∧
    (∀ t side tLot ts tHead fuel ep st,
      reset p t side tLot ts tHead fuel = some (ep, st) →
      ∀ v ∈ ep.parking_lot_vertices.toList,
        |v.1 - ep.car.car_loc.1| < p.MAX_DISTANCE ∧
        |v.2 - ep.car.car_loc.2| < p.MAX_DISTANCE) := by
  have key : ∀ fuel side lot lotVerts ts loc,
      resetLoop p side lot lotVerts fuel ts = some loc →
      ¬ check_max_distance p lotVerts loc := by
    intro fuel
    induction fuel with
    | zero => intro side lot lotVerts ts loc h; simp [resetLoop] at h
    | succ n ih =>
      intro side lot lotVerts ts loc h
      simp only [resetLoop] at h
      by_cases hc : check_max_distance p lotVerts (set_initial_car_loc side lot (ts 0))
      · rw [if_pos hc] at h
        exact ih side lot lotVerts _ loc h
      · rw [if_neg hc] at h
        obtain rfl := Option.some.inj h
        exact hc
  have key2 : ∀ lotVerts loc, ¬ check_max_distance p lotVerts loc →
      ∀ v ∈ Quad.toList lotVerts,
        |v.1 - loc.1| < p.MAX_DISTANCE ∧ |v.2 - loc.2| < p.MAX_DISTANCE := by
    intro lotVerts loc h
    unfold check_max_distance at h
    push_neg at h
    exact h
  refine ⟨fun side lot lotVerts fuel ts loc h =>
    key2 lotVerts loc (key fuel side lot lotVerts ts loc h), ?_⟩
  intro t side tLot ts tHead fuel ep st h
  simp only [reset] at h
  cases hr : resetLoop p side (set_initial_parking_loc p side tLot)
      (Quad.map (fun v => v + set_initial_parking_loc p side tLot)
        (get_parking_struct p t side)) fuel ts with
  | none => rw [hr] at h; simp at h
  | some loc =>
    rw [hr] at h
    simp only [Option.some.injEq, Prod.mk.injEq] at h
    obtain ⟨h1, h2⟩ := h
    rw [← h1]
    exact key2 _ loc (key fuel side _ _ ts loc hr)

/-- C4: in discrete mode, an integer action outside 0..5 makes `step` fail
with the invalid-action error, and the episode comes back unchanged in every
field: car state, step counter, both flags, and the stored observation. -/
theorem invalid_discrete_action (p : Params) (t : ParkingType) (e : Episode) (a : ℤ)
    (h : ¬(a = 0 ∨ a = 1 ∨ a = 2 ∨ a = 3 ∨ a = 4 ∨ a = 5)) :
    stepDiscrete p t e a = (e, Except.error ("Invalid action value")) ∧
    (stepDiscrete p t e a).1.car = e.car ∧
    (stepDiscrete p t e a).1.run_steps = e.run_steps ∧
    (stepDiscrete p t e a).1.terminated = e.terminated ∧
    (stepDiscrete p t e a).1.truncated = e.truncated ∧
    (stepDiscrete p t e a).1.state = e.state := by
  push_neg at h
  obtain ⟨h0, h1, h2, h3, h4, h5⟩ := h
  have he : stepDiscrete p t e a = (e, Except.error ("Invalid action value")) := by
    simp only [stepDiscrete]
    rw [if_neg h0, if_neg h1, if_neg h2, if_neg h3, if_neg h4, if_neg h5]
  exact ⟨he, by rw [he], by rw [he], by rw [he], by rw [he], by rw [he]⟩

lemma reward_terminated_mono (p : Params) (t : ParkingType) (e : Episode)
    (h : e.terminated = true) : ((_reward p t e).2).terminated = true := by
  simp only [_reward]
  split_ifs <;> simp [h]

lemma reward_truncated_mono (p : Params) (t : ParkingType) (e : Episode)
    (h : e.truncated = true) : ((_reward p t e).2).truncated = true := by
  simp only [_reward]
  split_ifs <;> simp [h]

lemma stepAfterDecode_terminated_mono (p : Params) (t : ParkingType) (e : Episode)
    (action : ℝ × ℝ) (h : e.terminated = true) :
    ((stepAfterDecode p t e action).1).terminated = true := by
  simp only [stepAfterDecode]
  exact reward_terminated_mono p t _ h

lemma stepAfterDecode_truncated_mono (p : Params) (t : ParkingType) (e : Episode)
    (action : ℝ × ℝ) (h : e.truncated = true) :
    ((stepAfterDecode p t e action).1).truncated = true := by
  simp only [stepAfterDecode]
  exact reward_truncated_mono p t _ h

/-- C5: Terminated and Truncated are absorbing within an episode: a true flag
stays true across any sequence of continuous `step` calls and across any
discrete `step` call (valid or invalid), and only a completed `reset` clears
both flags, together with resetting the step counter to 0. -/
theorem flags_absorbing (p : Params) (t : ParkingType) :
    (∀ e acts, e.terminated = true → (runContinuous p t e acts).terminated = true) ∧
    (∀ e acts, e.truncated = true → (runContinuous p t e acts).truncated = true) ∧
    (∀ e (a : ℤ), e.terminated = true → (stepDiscrete p t e a).1.terminated = true) ∧
    (∀ e (a : ℤ), e.truncated = true → (stepDiscrete p t e a).1.truncated = true) ∧
    (∀ (side : Side) (tLot : ℝ) (ts : ℕ → ℝ) (tHead : ℝ) (fuel : ℕ) (ep : Episode)
      (st : List ℝ),
      reset p t side tLot ts tHead fuel = some (ep, st) →
      ep.terminated = false ∧ ep.truncated = false ∧ ep.run_steps = 0) := by
  have hterm : ∀ acts e, e.terminated = true →
      (runContinuous p t e acts).terminated = true := by
    intro acts
    induction acts with
    | nil => intro e h; exact h
    | cons a as ih =>
      intro e h
      simp only [runContinuous, List.foldl_cons] at *
      exact ih _ (stepAfterDecode_terminated_mono p t e _ h)
  have htrunc : ∀ acts e, e.truncated = true →
      (runContinuous p t e acts).truncated = true := by
    intro acts
    induction acts with
    | nil => intro e h; exact h
    | cons a as ih =>
      intro e h
      simp only [runContinuous, List.foldl_cons] at *
      exact ih _ (stepAfterDecode_truncated_mono p t e _ h)
  refine ⟨fun e acts h => hterm acts e h, fun e acts h => htrunc acts e h, ?_, ?_, ?_⟩
  · intro e a h
    simp only [stepDiscrete]
    split_ifs <;>
      first
      | exact stepAfterDecode_terminated_mono p t e _ h
      | exact h
  · intro e a h
    simp only [stepDiscrete]
    split_ifs <;>
      first
      | exact stepAfterDecode_truncated_mono p t e _ h
      | exact h
  · intro side tLot ts tHead fuel ep st h
    simp only [reset] at h
    cases hr : resetLoop p side (set_initial_parking_loc p side tLot)
        (Quad.map (fun v => v + set_initial_parking_loc p side tLot)
          (get_parking_struct p t side)) fuel ts with
    | none => rw [hr] at h; simp at h
    | some loc =>
      rw [hr] at h
      simp only [Option.some.injEq, Prod.mk.injEq] at h
      obtain ⟨hep, hst⟩ := h
      rw [← hep]
      exact ⟨rfl, rfl, rfl⟩

/-- Witness for C5: a scene whose flags were forced true keeps them true
through a continuous step and a discrete step, and the concrete reset comes
back with both flags false and the counter zero. -/
theorem flags_absorbing_witness :
    (runContinuous testParams .perpendicular
      { scene with terminated := true, truncated := true } [(0, 0)]).terminated = true ∧
    (runContinuous testParams .perpendicular
      { scene with terminated := true, truncated := true } [(0, 0)]).truncated = true ∧
    (stepDiscrete testParams .perpendicular
      { scene with terminated := true, truncated := true } 9).1.terminated = true ∧
    (stepDiscrete testParams .perpendicular
      { scene with terminated := true, truncated := true } 9).1.truncated = true ∧
    (scene.terminated = false ∧ scene.truncated = false ∧ scene.run_steps = 0) :=
  have h := flags_absorbing testParams .perpendicular
  ⟨h.1 _ _ rfl, h.2.1 _ _ rfl, h.2.2.1 _ _ rfl, h.2.2.2.1 _ _ rfl,
   h.2.2.2.2 .one 0 (fun _ => 1/2) (1/2) 1 scene sceneObs reset_scene⟩

/-- C6: scenario invariant — when the slot corner pattern and obstacle-car
corner pattern for the episode's `(type, side)` are rectangles whose
half-extents along the obstacle-offset axis sum to less than the configured
offset (the spec's condition that the slot and its flanking obstacles never
overlap), any footprint fully within the generated slot collides with none of
the two generated static obstacles, for both parking types and all four
sides. -/
theorem slot_obstacle_disjoint (p : Params) (t : ParkingType) (side : Side)
    (lot : Point) (carVerts : Quad) (sx sy cx cy : ℝ)
    (hs : get_parking_struct p t side = rectStruct sx sy)
    (hc : get_car_struct p t side = rectStruct cx cy)
    (hoff : match side with
      | .one | .two => sx + cx < offsetOf p t
      | .three | .four => sy + cy < offsetOf p t)
    (hin : is_car_in_parking_lot carVerts
      (Quad.map (fun v => v + lot) (get_parking_struct p t side))) :
    ¬ check_collision carVerts (generate_static_obstacles p t lot side).1 := by
  intro hcol
  obtain ⟨q, hq, v, hv, hb⟩ := hcol
  have hvin := hin v hv
  rw [hs] at hvin
  simp only [check_boundary, Quad.map, rectStruct, Prod.fst_add, Prod.snd_add] at hvin
  obtain ⟨ha1, ha2, ha3, ha4⟩ := hvin
  simp only [generate_static_obstacles, hc] at hq
  cases side with
  | one =>
    have ho : sx + cx < offsetOf p t := hoff
    simp only [List.map_cons, List.map_nil, List.mem_cons, List.not_mem_nil,
      or_false] at hq
    rcases hq with rfl | rfl <;>
      (simp only [check_boundary, Quad.map, rectStruct, Prod.fst_add, Prod.snd_add] at hb
       obtain ⟨hb1, hb2, hb3, hb4⟩ := hb
       linarith)
  | two =>
    have ho : sx + cx < offsetOf p t := hoff
    simp only [List.map_cons, List.map_nil, List.mem_cons, List.not_mem_nil,
      or_false] at hq
    rcases hq with rfl | rfl <;>
      (simp only [check_boundary, Quad.map, rectStruct, Prod.fst_add, Prod.snd_add] at hb
       obtain ⟨hb1, hb2, hb3, hb4⟩ := hb
       linarith)
  | three =>
    have ho : sy + cy < offsetOf p t := hoff
    simp only [List.map_cons, List.map_nil, List.mem_cons, List.not_mem_nil,
      or_false] at hq
    rcases hq with rfl | rfl <;>
      (simp only [check_boundary, Quad.map, rectStruct, Prod.fst_add, Prod.snd_add] at hb
       obtain ⟨hb1, hb2, hb3, hb4⟩ := hb
       linarith)
  | four =>
    have ho : sy + cy < offsetOf p t := hoff
    simp only [List.map_cons, List.map_nil, List.mem_cons, List.not_mem_nil,
      or_false] at hq
    rcases hq with rfl | rfl <;>
      (simp only [check_boundary, Quad.map, rectStruct, Prod.fst_add, Prod.snd_add] at hb
       obtain ⟨hb1, hb2, hb3, hb4⟩ := hb
       linarith)

/-- Witness for C6: the parked footprint inside the concrete scenario slot
does not collide with the two generated obstacles. -/
theorem slot_obstacle_disjoint_witness :
    ¬ check_collision (car_vertices testParams parkedCar)
      (generate_static_obstacles testParams .perpendicular sceneLot .one).1 :=
  slot_obstacle_disjoint testParams .perpendicular .one sceneLot
    (car_vertices testParams parkedCar) (7/4) (11/4) 1 2 rfl
    (by norm_num [get_car_struct, testParams, rectStruct, Quad.mk.injEq, Prod.ext_iff])
    (by norm_num [offsetOf, testParams])
    parked_in_lot

/-- C2: on a successful park (all four failure checks negative, the car fully
within the slot, both axis distances within the centering threshold), the
returned reward is `1 - min(0.5 * angleError / MAX_ANGLE_ERROR, 0.5)` with
the angle error the minimum over the acceptable target headings of the
absolute wrapped difference; a heading equal to an acceptable target gives
reward exactly 1, and for any positive `MAX_ANGLE_ERROR` the success reward
lies in [1/2, 1]. -/
theorem success_reward (p : Params) (t : ParkingType) (e : Episode)
    (hmae : 0 < p.MAX_ANGLE_ERROR)
    (h1 : e.run_steps + 1 ≠ p.MAX_STEPS)
    (h2 : ¬ check_cross_border (car_vertices p e.car) e.parking_lot_vertices e.side)
    (h3 : ¬ check_max_distance p e.parking_lot_vertices e.car.car_loc)
    (h4 : ¬ check_collision (car_vertices p e.car) e.static_cars_vertices)
    (h5 : is_car_in_parking_lot (car_vertices p e.car) e.parking_lot_vertices)
    (h6 : is_parking_successful p e.parking_lot e.car.car_loc) :
    (_reward p t e).1 =
      1 - min (0.5 * (angleError e.car.psi (get_parking_angle t e.side) / p.MAX_ANGLE_ERROR))
        0.5 ∧
    (∀ a ∈ (get_parking_angle t e.side).targets, e.car.psi = a → (_reward p t e).1 = 1) ∧
    (1 : ℝ) / 2 ≤ (_reward p t e).1 ∧ (_reward p t e).1 ≤ 1 := by
  have hr : (_reward p t e).1 = 1 - calc_angle_dif p e.car.psi (get_parking_angle t e.side) := by
    simp only [_reward]
    rw [if_neg h1, if_neg h2, if_neg h3, if_neg h4, if_pos h5, if_pos h6]
  have hpen0 : 0 ≤ calc_angle_dif p e.car.psi (get_parking_angle t e.side) := by
    unfold calc_angle_dif
    refine le_min (mul_nonneg (by norm_num) (div_nonneg (angleError_nonneg _ _) hmae.le))
      (by norm_num)
  have hpen1 : calc_angle_dif p e.car.psi (get_parking_angle t e.side) ≤ 0.5 :=
    min_le_right _ _
  refine ⟨by rw [hr]; rfl, ?_, ?_, ?_⟩
  · intro a ha hpsi
    have h0 : angleError e.car.psi (get_parking_angle t e.side) = 0 :=
      angleError_target _ _ (by rw [hpsi]; exact ha)
    rw [hr]
    unfold calc_angle_dif
    rw [h0]
    norm_num
  · rw [hr]
    linarith
  · rw [hr]
    linarith

/-- Witness for C2: the parked scenario car, perfectly oriented, earns reward
exactly 1, inside the claimed [1/2, 1] range. -/
theorem success_reward_witness :
    (_reward testParams .perpendicular parked).1 = 1 ∧
    (1 : ℝ) / 2 ≤ (_reward testParams .perpendicular parked).1 ∧
    (_reward testParams .perpendicular parked).1 ≤ 1 := by
  have h := success_reward testParams .perpendicular parked
    (by norm_num [testParams]) (by decide) parked_not_cross parked_not_md
    parked_not_coll parked_in_lot parked_success
  refine ⟨h.2.1 (π / 2) ?_ rfl, h.2.2.1, h.2.2.2⟩
  simp [parked, scene, get_parking_angle, ParkingAngle.targets]

/-- C3: the observation vector is exactly the 10 values claimed: the ego-frame
(dx, dy) of the 4 slot corners in row order, then the ego-frame (dx, dy) of
the slot center, each divided by `MAX_DISTANCE` and clipped to [-1, 1]; it
always has length 10 with every entry in [-1, 1]; the observation returned by
a continuous `step` is the stored normalized state of the resulting episode,
and a completed `reset` returns the stored normalized state of the fresh
episode. -/
theorem observation_structure :
    (∀ (p : Params) (q : Quad) (lot loc : Point) (psi : ℝ),
      get_normalized_state p q lot loc psi =
        [clip ((transform_point q.tr.1 q.tr.2 loc.1 loc.2 psi).1 / p.MAX_DISTANCE),
         clip ((transform_point q.tr.1 q.tr.2 loc.1 loc.2 psi).2 / p.MAX_DISTANCE),
         clip ((transform_point q.br.1 q.br.2 loc.1 loc.2 psi).1 / p.MAX_DISTANCE),
         clip ((transform_point q.br.1 q.br.2 loc.1 loc.2 psi).2 / p.MAX_DISTANCE),
         clip ((transform_point q.bl.1 q.bl.2 loc.1 loc.2 psi).1 / p.MAX_DISTANCE),
         clip ((transform_point q.bl.1 q.bl.2 loc.1 loc.2 psi).2 / p.MAX_DISTANCE),
         clip ((transform_point q.tl.1 q.tl.2 loc.1 loc.2 psi).1 / p.MAX_DISTANCE),
         clip ((transform_point q.tl.1 q.tl.2 loc.1 loc.2 psi).2 / p.MAX_DISTANCE),
         clip ((transform_point lot.1 lot.2 loc.1 loc.2 psi).1 / p.MAX_DISTANCE),
         clip ((transform_point lot.1 lot.2 loc.1 loc.2 psi).2 / p.MAX_DISTANCE)]) ∧
    (∀ (p : Params) (q : Quad) (lot loc : Point) (psi : ℝ),
      (get_normalized_state p q lot loc psi).length = 10) ∧
    (∀ (p : Params) (q : Quad) (lot loc : Point) (psi : ℝ),
      ∀ x ∈ get_normalized_state p q lot loc psi, -1 ≤ x ∧ x ≤ 1) ∧
    (∀ (p : Params) (t : ParkingType) (e : Episode) (a δ : ℝ),
      (stepContinuous p t e a δ).2.1 = (stepContinuous p t e a δ).1.state ∧
      (stepContinuous p t e a δ).1.state =
        get_normalized_state p (stepContinuous p t e a δ).1.parking_lot_vertices
          (stepContinuous p t e a δ).1.parking_lot
          (stepContinuous p t e a δ).1.car.car_loc
          (stepContinuous p t e a δ).1.car.psi) ∧
    (∀ (p : Params) (t : ParkingType) (side : Side) (tLot : ℝ) (ts : ℕ → ℝ) (tHead : ℝ)
      (fuel : ℕ) (ep : Episode) (st : List ℝ),
      reset p t side tLot ts tHead fuel = some (ep, st) →
      st = ep.state ∧
      ep.state = get_normalized_state p ep.parking_lot_vertices ep.parking_lot
        ep.car.car_loc ep.car.psi) := by
  have h1 : ∀ (p : Params) (q : Quad) (lot loc : Point) (psi : ℝ),
      get_normalized_state p q lot loc psi =
        [clip ((transform_point q.tr.1 q.tr.2 loc.1 loc.2 psi).1 / p.MAX_DISTANCE),
         clip ((transform_point q.tr.1 q.tr.2 loc.1 loc.2 psi).2 / p.MAX_DISTANCE),
         clip ((transform_point q.br.1 q.br.2 loc.1 loc.2 psi).1 / p.MAX_DISTANCE),
         clip ((transform_point q.br.1 q.br.2 loc.1 loc.2 psi).2 / p.MAX_DISTANCE),
         clip ((transform_point q.bl.1 q.bl.2 loc.1 loc.2 psi).1 / p.MAX_DISTANCE),
         clip ((transform_point q.bl.1 q.bl.2 loc.1 loc.2 psi).2 / p.MAX_DISTANCE),
         clip ((transform_point q.tl.1 q.tl.2 loc.1 loc.2 psi).1 / p.MAX_DISTANCE),
         clip ((transform_point q.tl.1 q.tl.2 loc.1 loc.2 psi).2 / p.MAX_DISTANCE),
         clip ((transform_point lot.1 lot.2 loc.1 loc.2 psi).1 / p.MAX_DISTANCE),
         clip ((transform_point lot.1 lot.2 loc.1 loc.2 psi).2 / p.MAX_DISTANCE)] :=
    fun _ _ _ _ _ => rfl
  refine ⟨h1, fun p q lot loc psi => by rw [h1]; rfl, ?_, ?_, ?_⟩
  · intro p q lot loc psi x hx
    rw [h1] at hx
    simp only [List.mem_cons, List.not_mem_nil, or_false] at hx
    rcases hx with rfl | rfl | rfl | rfl | rfl | rfl | rfl | rfl | rfl | rfl <;>
      exact ⟨neg_one_le_clip _, clip_le_one _⟩
  · intro p t e a δ
    exact ⟨rfl, rfl⟩
  · intro p t side tLot ts tHead fuel ep st h
    simp only [reset] at h
    cases hr : resetLoop p side (set_initial_parking_loc p side tLot)
        (Quad.map (fun v => v + set_initial_parking_loc p side tLot)
          (get_parking_struct p t side)) fuel ts with
    | none => rw [hr] at h; simp at h
    | some loc =>
      rw [hr] at h
      simp only [Option.some.injEq, Prod.mk.injEq] at h
      obtain ⟨hep, hst⟩ := h
      rw [← hep, ← hst]
      exact ⟨rfl, rfl⟩

/-- Witness for C3: the concrete scenario reset returns the stored normalized
state of the episode it builds. -/
theorem observation_structure_witness :
    sceneObs = scene.state ∧
    scene.state = get_normalized_state testParams scene.parking_lot_vertices
      scene.parking_lot scene.car.car_loc scene.car.psi :=
  observation_structure.2.2.2.2 testParams .perpendicular .one 0 (fun _ => 1/2) (1/2) 1
    scene sceneObs reset_scene

/-- C1: the per-step decision of `_reward` follows the claimed
first-match-wins order, with the claimed reward and flag outcome in each of
the six cases (and the flags untouched in the fall-through case). -/
theorem reward_first_match_order (p : Params) (t : ParkingType) (e : Episode) :
    (e.run_steps + 1 = p.MAX_STEPS →
      _reward p t e =
        (-1,
         { e with run_steps := e.run_steps + 1, truncated := true, terminated := true })) ∧
    (e.run_steps + 1 ≠ p.MAX_STEPS →
      check_cross_border (car_vertices p e.car) e.parking_lot_vertices e.side →
      _reward p t e =
        (-1, { e with run_steps := e.run_steps + 1, terminated := true })) ∧
    (e.run_steps + 1 ≠ p.MAX_STEPS →
      ¬ check_cross_border (car_vertices p e.car) e.parking_lot_vertices e.side →
      check_max_distance p e.parking_lot_vertices e.car.car_loc →
      _reward p t e =
        (-1, { e with run_steps := e.run_steps + 1, terminated := true })) ∧
    (e.run_steps + 1 ≠ p.MAX_STEPS →
      ¬ check_cross_border (car_vertices p e.car) e.parking_lot_vertices e.side →
      ¬ check_max_distance p e.parking_lot_vertices e.car.car_loc →
      check_collision (car_vertices p e.car) e.static_cars_vertices →
      _reward p t e =
        (-1, { e with run_steps := e.run_steps + 1, terminated := true })) ∧
    (e.run_steps + 1 ≠ p.MAX_STEPS →
      ¬ check_cross_border (car_vertices p e.car) e.parking_lot_vertices e.side →
      ¬ check_max_distance p e.parking_lot_vertices e.car.car_loc →
      ¬ check_collision (car_vertices p e.car) e.static_cars_vertices →
      is_car_in_parking_lot (car_vertices p e.car) e.parking_lot_vertices →
      is_parking_successful p e.parking_lot e.car.car_loc →
      _reward p t e =
        (1 - calc_angle_dif p e.car.psi (get_parking_angle t e.side),
         { e with run_steps := e.run_steps + 1, terminated := true })) ∧
    (e.run_steps + 1 ≠ p.MAX_STEPS →
      ¬ check_cross_border (car_vertices p e.car) e.parking_lot_vertices e.side →
      ¬ check_max_distance p e.parking_lot_vertices e.car.car_loc →
      ¬ check_collision (car_vertices p e.car) e.static_cars_vertices →
      ¬ (is_car_in_parking_lot (car_vertices p e.car) e.parking_lot_vertices ∧
         is_parking_successful p e.parking_lot e.car.car_loc) →
      _reward p t e = (0, { e with run_steps := e.run_steps + 1 })) := by
  refine ⟨?_, ?_, ?_, ?_, ?_, ?_⟩
  · intro h1
    simp only [_reward]
    rw [if_pos h1]
  · intro h1 h2
    simp only [_reward]
    rw [if_neg h1, if_pos h2]
  · intro h1 h2 h3
    simp only [_reward]
    rw [if_neg h1, if_neg h2, if_pos h3]
  · intro h1 h2 h3 h4
    simp only [_reward]
    rw [if_neg h1, if_neg h2, if_neg h3, if_pos h4]
  · intro h1 h2 h3 h4 h5 h6
    simp only [_reward]
    rw [if_neg h1, if_neg h2, if_neg h3, if_neg h4, if_pos h5, if_pos h6]
  · intro h1 h2 h3 h4 h5
    simp only [_reward]
    rw [if_neg h1, if_neg h2, if_neg h3, if_neg h4]
    by_cases hin : is_car_in_parking_lot (car_vertices p e.car) e.parking_lot_vertices
    · have hs : ¬ is_parking_successful p e.parking_lot e.car.car_loc :=
        fun hsucc => h5 ⟨hin, hsucc⟩
      rw [if_pos hin, if_neg hs]
    · rw [if_neg hin]

/-- Witness for C1: the scenario episode one step before the maximum hits the
max-steps case: reward -1 with both flags set. -/
theorem reward_first_match_order_witness :
    _reward testParams .perpendicular { scene with run_steps := 299 } =
      (-1, { scene with run_steps := 300, truncated := true, terminated := true }) :=
  (reward_first_match_order testParams .perpendicular
    { scene with run_steps := 299 }).1 (by decide)

/-- Witness for C4: discrete action 7 fails with the invalid-action error and
leaves the scenario episode untouched. -/
theorem invalid_discrete_action_witness :
    stepDiscrete testParams .perpendicular scene 7 =
      (scene, Except.error ("Invalid action value")) ∧
    (stepDiscrete testParams .perpendicular scene 7).1.car = scene.car ∧
    (stepDiscrete testParams .perpendicular scene 7).1.run_steps = scene.run_steps ∧
    (stepDiscrete testParams .perpendicular scene 7).1.terminated = scene.terminated ∧
    (stepDiscrete testParams .perpendicular scene 7).1.truncated = scene.truncated ∧
    (stepDiscrete testParams .perpendicular scene 7).1.state = scene.state :=
  invalid_discrete_action testParams .perpendicular scene 7 (by decide)

/-- Witness for C10: the car location of the concrete scenario reset is
strictly within the distance bound of the slot's top-right corner. -/
theorem reset_distance_invariant_witness :
    |(47/4 : ℝ) - scene.car.car_loc.1| < testParams.MAX_DISTANCE ∧
    |(31/4 : ℝ) - scene.car.car_loc.2| < testParams.MAX_DISTANCE :=
  (reset_distance_invariant testParams).2 .perpendicular .one 0 (fun _ => 1/2) (1/2) 1
    scene sceneObs reset_scene (47/4, 31/4)
    (by rw [show scene.parking_lot_vertices = sceneVerts from rfl, sceneVerts_eq]
        simp [Quad.toList])

/-- C9 counterexample: in the claimed scenario (side 1, perpendicular, slot at
(10, 5), car placed by `set_initial_car_loc` with zero jitter, heading exactly
π/2, speed 0), the first continuous no-op step indeed returns
terminated = false and truncated = false, but the 9th observation component —
the x part of the slot-center ego offset, one of "the last two components" —
is exactly 0, so the claim that both of the last two components are nonzero
fails at this input. -/
theorem scenario_side1_counterexample :
    (stepContinuous testParams .perpendicular scene 0 0).2.2.2.1 = false ∧
    (stepContinuous testParams .perpendicular scene 0 0).2.2.2.2.1 = false ∧
    (stepContinuous testParams .perpendicular scene 0 0).2.1.getD 8 0 = 0 := by
  rw [step_scene]
  refine ⟨rfl, rfl, ?_⟩
  rw [show ((({ scene with run_steps := 1 } : Episode),
    (sceneObs, (0:ℝ), false, false, (1:ℕ))).2.1) = sceneObs from rfl, sceneObs_eq]
  rfl

/-- C9 amended: in the claimed scenario the first continuous no-op step
returns terminated = false and truncated = false, the observation has 10
components all in [-1, 1], and of the last two components (the slot-center
ego offset) the y part is nonzero while the x part equals 0 — the pair is
nonzero as a vector, but not componentwise. -/
theorem scenario_side1_amended :
    (stepContinuous testParams .perpendicular scene 0 0).2.2.2.1 = false ∧
    (stepContinuous testParams .perpendicular scene 0 0).2.2.2.2.1 = false ∧
    (stepContinuous testParams .perpendicular scene 0 0).2.1.length = 10 ∧
    (-1 ≤ (stepContinuous testParams .perpendicular scene 0 0).2.1.getD 8 0 ∧
      (stepContinuous testParams .perpendicular scene 0 0).2.1.getD 8 0 ≤ 1) ∧
    (-1 ≤ (stepContinuous testParams .perpendicular scene 0 0).2.1.getD 9 0 ∧
      (stepContinuous testParams .perpendicular scene 0 0).2.1.getD 9 0 ≤ 1) ∧
    (stepContinuous testParams .perpendicular scene 0 0).2.1.getD 9 0 ≠ 0 := by
  rw [step_scene]
  rw [show ((({ scene with run_steps := 1 } : Episode),
    (sceneObs, (0:ℝ), false, false, (1:ℕ))).2.1) = sceneObs from rfl, sceneObs_eq]
  norm_num

end

end ParkingEnv
